import Mathlib

/-!
Verification of the authentication and session-lifecycle subsystem of the
iron-track backend (src/app): token codec (lib/jwt_utils.py), credential
verifier (lib/crypt.py), revocation ledger and token helpers
(domain/users/jwt_helpers.py), identity cache (domain/users/auth.py,
lib/invalidate_cache.py), authentication pipeline and authorization guards
(domain/users/auth.py), login service (domain/users/services.py) and the
role-management controller (domain/users/controllers/user_role.py).

The Python code is shallowly embedded: async functions become pure functions
with the Redis / database state passed explicitly, exceptions become
`Except` results, and timestamps are seconds since the epoch as `Nat`.
External collaborators are modelled by their contracts: Redis is an
association list of keys with value and ttl, the Ed25519 signature of
joserfc is key identity, uuid4 is a caller-supplied fresh string, and the
Argon2id hasher of pwdlib is a structure pairing the plaintext with the
salt drawn at hashing time.
-/

namespace IronTrack

/-! ## Exceptions (app/lib/exceptions.py) -/

/-- `BaseAPIException`: an HTTP status code together with a message. -/
structure APIError where
  status : Nat
  message : String
deriving DecidableEq

/-- `UnauthorizedException` (status 401). The Python default message is
"Not authenticated"; callers that pass a message are modelled by applying
this to that message. -/
def unauthorizedException (message : String) : APIError :=
  { status := 401, message := message }

/-- `PermissionDeniedException` (status 403). -/
def permissionDeniedException (message : String) : APIError :=
  { status := 403, message := message }

/-- `UserNotFound` (status 404, fixed message). -/
def userNotFound : APIError :=
  { status := 404, message := "User not found" }

/-- `ConflictException` (status 409). -/
def conflictException (message : String) : APIError :=
  { status := 409, message := message }

/-- `NotFoundException` (status 404). -/
def notFoundException (message : String) : APIError :=
  { status := 404, message := message }

/-- A failure escaping a request handler: either a raised `BaseAPIException`
or a Python `KeyError` from a missing dictionary key (for example
`token_payload["jti"]` on a payload without a jti claim). -/
inductive Failure where
  | api (e : APIError)
  | keyError (key : String)
  | typeError (msg : String)
  | ormNotFound
deriving DecidableEq

/-! ## Configuration (app/config/constants.py, app/config/base.py) -/

/-- constants.py: `ACCESS_TOKEN_MAX_AGE = 30 * 60`. -/
def ACCESS_TOKEN_MAX_AGE : Nat := 30 * 60

/-- constants.py: `REFRESH_TOKEN_MAX_AGE = 30 * 24 * 60 * 60`; used as the
Redis blacklist expiry time. -/
def REFRESH_TOKEN_MAX_AGE : Nat := 30 * 24 * 60 * 60

/-- constants.py: `FITNESS_TRAINER_ROLE_SLUG = "fitness-trainer"`. -/
def FITNESS_TRAINER_ROLE_SLUG : String := "fitness-trainer"

/-- constants.py: `DEFAULT_ADMIN_EMAIL = "system.admin@example.com"`. -/
def DEFAULT_ADMIN_EMAIL : String := "system.admin@example.com"

/-- constants.py: `DEFAULT_USER_ROLE_SLUG = "application-access"`. -/
def DEFAULT_USER_ROLE_SLUG : String := "application-access"

/-- config/base.py `JWTSettings.ACCESS_TOKEN_EXPIRE_MINUTES` (default 30). -/
def ACCESS_TOKEN_EXPIRE_MINUTES : Nat := 30

/-- config/base.py `JWTSettings.REFRESH_TOKEN_EXPIRE_DAYS` (default 30). -/
def REFRESH_TOKEN_EXPIRE_DAYS : Nat := 30

/-! ## Token codec (app/lib/jwt_utils.py) -/

/-- The claims dictionary of a JWT, restricted to the entries the auth
subsystem reads or writes. `none` means the key is absent from the dict. -/
structure TokenClaims where
  sub : Option String
  email : Option String
  iat : Option Nat
  exp : Option Nat
  jti : Option String
deriving DecidableEq

/-- A signed token as produced by joserfc `jwt.encode`: the claims plus the
identity of the Ed25519 key that signed them. Signature verification is
modelled as equality of key identities. -/
structure SignedToken where
  claims : TokenClaims
  sigKey : Nat
deriving DecidableEq

/-- `encode_jwt(payload, key_obj, algorithm, expire_minutes, expire_timedelta)`.
`timeNow` stands for `datetime.now(tz=UTC)` in epoch seconds and `freshJti`
for `str(uuid4())`, both supplied by the environment. `expireTimedelta` is
in seconds; the Python expression `time_now + expire_timedelta if
expire_timedelta else ...` treats a zero timedelta like `None`
(falsy), which the inner `if d = 0` branch mirrors. -/
def encode_jwt (payload : TokenClaims) (keyObj : Nat) (expireMinutes : Nat)
    (expireTimedelta : Option Nat) (timeNow : Nat) (freshJti : String) : SignedToken :=
  let expire : Nat :=
    match expireTimedelta with
    | some d => if d = 0 then timeNow + expireMinutes * 60 else timeNow + d
    | none => timeNow + expireMinutes * 60
  { claims := { payload with iat := some timeNow, exp := some expire, jti := some freshJti },
    sigKey := keyObj }

/-- joserfc error taxonomy reached by this subsystem; every constructor is a
subclass of `JoseError` in the library. -/
inductive JoseError where
  | badSignature
  | missingClaim (name : String)
  | expiredToken
deriving DecidableEq

/-- `decode_jwt(token, key_obj, algorithm)`: joserfc `jwt.decode` verifies the
signature and parses the claims; claim validation is separate. -/
def decode_jwt (token : SignedToken) (keyObj : Nat) : Except JoseError TokenClaims :=
  if token.sigKey = keyObj then .ok token.claims else .error .badSignature

/-- `JWTClaimsRegistry(exp={"essential": True}, iat={"essential": True})
.validate(claims)` at time `timeNow` (domain/users/auth.py lines 44-47):
`exp` and `iat` must be present, and an `exp` in the past raises
`ExpiredTokenError`. -/
def claims_registry_validate (claims : TokenClaims) (timeNow : Nat) : Except JoseError Unit :=
  match claims.exp with
  | none => .error (.missingClaim "exp")
  | some e =>
    match claims.iat with
    | none => .error (.missingClaim "iat")
    | some _ => if e < timeNow then .error .expiredToken else .ok ()

/-! ## Credential verifier (app/lib/crypt.py) -/

/-- Output of the pwdlib Argon2id hasher, modelled by its contract: hashing
draws a fresh random salt and the resulting string determines (only to the
verifier) the plaintext it was derived from. Distinct salts give distinct
hash strings. -/
structure HashedPassword where
  salt : String
  plain : String
deriving DecidableEq

/-- `get_password_hash(password)`: `hasher.hash` on the worker pool. `salt`
stands for the random salt drawn by Argon2id during this invocation. -/
def get_password_hash (password : String) (salt : String) : HashedPassword :=
  { salt := salt, plain := password }

/-- `verify_password(plain_password, hashed_password)`:
`hasher.verify_and_update` on the worker pool; true exactly when the
plaintext matches the one the hash was derived from, independent of salt. -/
def verify_password (plain_password : String) (hashed_password : HashedPassword) : Bool :=
  plain_password == hashed_password.plain

/-! ## Revocation ledger (app/domain/users/jwt_helpers.py) -/

/-- The Redis keyspace: a list of (key, value, ttl-in-seconds) entries, most
recently written first, with at most one live entry per key. -/
structure RedisState where
  entries : List (String × String × Nat)
deriving DecidableEq

/-- `redis_client.setex(name, time, value)`: upsert with expiry. -/
def RedisState.setex (r : RedisState) (name : String) (time : Nat) (value : String) : RedisState :=
  { entries := (name, value, time) :: r.entries.filter (fun e => !(e.1 == name)) }

/-- `redis_client.exists(name)` as a boolean. -/
def RedisState.existsKey (r : RedisState) (name : String) : Bool :=
  r.entries.any (fun e => e.1 == name)

/-- `redis_client.delete(name)`. -/
def RedisState.del (r : RedisState) (name : String) : RedisState :=
  { entries := r.entries.filter (fun e => !(e.1 == name)) }

/-- The empty keyspace. -/
def RedisState.empty : RedisState := { entries := [] }

/-- `add_token_to_blacklist(refresh_token_identifier, redis_client)`:
`setex(name=f"revoked:{jti}", time=REFRESH_TOKEN_MAX_AGE, value="1")`. -/
def add_token_to_blacklist (refresh_token_identifier : String) (redis : RedisState) : RedisState :=
  redis.setex ("revoked:" ++ refresh_token_identifier) REFRESH_TOKEN_MAX_AGE "1"

/-- `is_token_in_blacklist(refresh_token_identifier, redis_client)`:
`bool(exists(f"revoked:{jti}"))`. -/
def is_token_in_blacklist (refresh_token_identifier : String) (redis : RedisState) : Bool :=
  redis.existsKey ("revoked:" ++ refresh_token_identifier)

/-- A revocation history: the ledger state after `add_token_to_blacklist`
has been called once for each identifier in `js`, starting from `r`. -/
def revocation_history (js : List String) (r : RedisState) : RedisState :=
  js.foldl (fun acc j => add_token_to_blacklist j acc) r

/-! ## Token issuance helpers (app/domain/users/jwt_helpers.py) -/

/-- `create_access_token(user_id, email)`: payload {sub, email}, default
expiry (ACCESS_TOKEN_EXPIRE_MINUTES). `user_id` is already `str(user_id)`. -/
def create_access_token (user_id : String) (email : String) (keyObj : Nat)
    (timeNow : Nat) (freshJti : String) : SignedToken :=
  encode_jwt
    { sub := some user_id, email := some email, iat := none, exp := none, jti := none }
    keyObj ACCESS_TOKEN_EXPIRE_MINUTES none timeNow freshJti

/-- `create_refresh_token(user_id)`: payload {sub}, explicit
`expire_timedelta = timedelta(days=REFRESH_TOKEN_EXPIRE_DAYS)`. -/
def create_refresh_token (user_id : String) (keyObj : Nat)
    (timeNow : Nat) (freshJti : String) : SignedToken :=
  encode_jwt
    { sub := some user_id, email := none, iat := none, exp := none, jti := none }
    keyObj ACCESS_TOKEN_EXPIRE_MINUTES (some (REFRESH_TOKEN_EXPIRE_DAYS * 24 * 60 * 60))
    timeNow freshJti

/-! ## Identity cache (app/domain/users/auth.py, app/lib/invalidate_cache.py) -/

/-- The `UserAuth` schema (domain/users/schemas.py): the identity projection
cached and returned by the authentication pipeline. `refresh_jti` models the
private `_refresh_jti` attribute, `none` after `__post_init__`. -/
structure UserAuth where
  id : String
  name : Option String
  email : String
  is_active : Bool
  is_superuser : Bool
  role_slug : String
  refresh_jti : Option String
deriving DecidableEq

/-- The identity-cache view of Redis: keys mapped to deserialized `UserAuth`
values (cashews stores the msgpack serialization; serialization is faithful,
so the value type is kept). -/
abbrev AuthCache := List (String × UserAuth)

/-- Lookup of a key in the identity cache. -/
def AuthCache.get (cache : AuthCache) (key : String) : Option UserAuth :=
  match cache with
  | [] => none
  | e :: rest => if e.1 = key then some e.2 else AuthCache.get rest key

/-- The cache key under which `Authenticate._get_user_from_payload` stores
the identity: the cashews template `"user_auth:{token_payload[sub]}"`
(auth.py line 83) rendered at the `sub` claim. -/
def user_auth_cache_key (sub : String) : String :=
  "user_auth:" ++ sub

/-- The key deleted by `invalidate_user_cache` (lib/invalidate_cache.py):
`f"{USER_AUTH_CACHE_NAMESPACE}:{user_id}"` where `USER_AUTH_CACHE_NAMESPACE =
f"{FASTAPI_CACHE_PREFIX}:{USER_AUTH_CACHE_PREFIX}"`. The two constants are
imported from app/config/constants.py but are not defined there (nor
anywhere under src), so they are left as the parameters `fcNs` and `uaNs`
and every result below holds for all of their possible values. -/
def invalidate_cache_key (fcNs uaNs : String) (user_id : String) : String :=
  fcNs ++ ":" ++ uaNs ++ ":" ++ user_id

/-- `invalidate_user_cache(user_id, redis_client)`: deletes
`invalidate_cache_key` from the keyspace holding the identity cache. -/
def invalidate_user_cache (fcNs uaNs : String) (user_id : String) (cache : AuthCache) : AuthCache :=
  cache.filter (fun e => !(e.1 == invalidate_cache_key fcNs uaNs user_id))

/-- The user store behind `users_service.get(item_id, load=...)`: maps a user
id (the string form of the UUID primary key) to the `UserAuth` projection
loaded by `_get_user_from_payload`, or `none` when the service raises
`NotFoundError`. -/
abbrev UserStore := String → Option UserAuth

/-! ## Authentication pipeline (app/domain/users/auth.py) -/

/-- `get_payload_from_token(authentication_token)`: joserfc decode plus
claims-registry validation; any `JoseError` collapses into
`UnauthorizedException("Invalid or expired token")`. -/
def get_payload_from_token (authenticationToken : SignedToken) (keyObj timeNow : Nat) :
    Except Failure TokenClaims :=
  match decode_jwt authenticationToken keyObj with
  | .error _ => .error (.api (unauthorizedException "Invalid or expired token"))
  | .ok claims =>
    match claims_registry_validate claims timeNow with
    | .error _ => .error (.api (unauthorizedException "Invalid or expired token"))
    | .ok _ => .ok claims

/-- `Authenticate._get_user_from_payload(token_payload, users_service)`,
including the cashews read-through cache: on a hit the store is not touched;
on a miss the loaded identity is stored under `user_auth_cache_key`;
a missing user becomes `UnauthorizedException("Invalid authentication
credentials")`. Returns the identity together with the updated cache. -/
def get_user_from_payload (token_payload : TokenClaims) (cache : AuthCache)
    (store : UserStore) : Except Failure (UserAuth × AuthCache) :=
  match token_payload.sub with
  | none => .error (.keyError "sub")
  | some user_id =>
    match AuthCache.get cache (user_auth_cache_key user_id) with
    | some u => .ok (u, cache)
    | none =>
      match store user_id with
      | some u => .ok (u, (user_auth_cache_key user_id, u) :: cache)
      | none => .error (.api (unauthorizedException "Invalid authentication credentials"))

/-- `Authenticate.get_current_user_for_refresh(token, users_service)` as
staged: decode and validate, extract the `jti`, then call
`is_token_in_blacklist(refresh_token_identifier=refresh_jti)`
(auth.py lines 147-149). That call omits the required `redis_client`
parameter of `is_token_in_blacklist` (jwt_helpers.py line 72) and the
dependency has no redis client to forward, so Python raises `TypeError`
there unconditionally; the blacklist check, the identity load, the activity
check and the jti attachment further down the function body are
unreachable. -/
def get_current_user_for_refresh (token : SignedToken) (keyObj timeNow : Nat)
    (_cache : AuthCache) (_store : UserStore) : Except Failure (UserAuth × AuthCache) :=
  match get_payload_from_token token keyObj timeNow with
  | .error e => .error e
  | .ok token_payload =>
    match token_payload.jti with
    | none => .error (.keyError "jti")
    | some _ =>
      .error (.typeError "is_token_in_blacklist missing required argument redis_client")

/-- `Authenticate.get_current_user_for_refresh` with the missing
`redis_client` argument supplied to the blacklist call — the call as the
unit and integration tests make it and as the pre-migration variant
(src/domain/users/auth.py) wrote it, and the behavior the function's own
docstring promises: decode and validate, blacklist check on the `jti`
(401 when revoked), identity load through the cache, activity check, then
attach the refresh `jti`. -/
def get_current_user_for_refresh_fixed (token : SignedToken) (keyObj timeNow : Nat)
    (redis : RedisState) (cache : AuthCache) (store : UserStore) :
    Except Failure (UserAuth × AuthCache) :=
  match get_payload_from_token token keyObj timeNow with
  | .error e => .error e
  | .ok token_payload =>
    match token_payload.jti with
    | none => .error (.keyError "jti")
    | some refresh_jti =>
      if is_token_in_blacklist refresh_jti redis then
        .error (.api (unauthorizedException "Invalid credentials"))
      else
        match get_user_from_payload token_payload cache store with
        | .error e => .error e
        | .ok (user_auth, cache2) =>
          if user_auth.is_active then
            .ok ({ user_auth with refresh_jti := some refresh_jti }, cache2)
          else
            .error (.api (unauthorizedException "Invalid credentials or account is unavailable"))

/-- `JWTCookieSecurity.__call__` (app/lib/auth.py) with `auto_error=True`:
a missing cookie raises `UnauthorizedException` with its default message. -/
def jwt_cookie_security (cookie : Option SignedToken) : Except Failure SignedToken :=
  match cookie with
  | some token => .ok token
  | none => .error (.api (unauthorizedException "Not authenticated"))

/-- `Authenticate.get_current_user(token, users_service)` on the access
cookie: extract, decode and validate, load through the cache. -/
def get_current_user (cookie : Option SignedToken) (keyObj timeNow : Nat)
    (cache : AuthCache) (store : UserStore) : Except Failure (UserAuth × AuthCache) :=
  match jwt_cookie_security cookie with
  | .error e => .error e
  | .ok token =>
    match get_payload_from_token token keyObj timeNow with
    | .error e => .error e
    | .ok token_payload => get_user_from_payload token_payload cache store

/-- The dependency returned by `Authenticate.get_current_active_user()`. -/
def get_current_active_user (cookie : Option SignedToken) (keyObj timeNow : Nat)
    (cache : AuthCache) (store : UserStore) : Except Failure (UserAuth × AuthCache) :=
  match get_current_user cookie keyObj timeNow cache store with
  | .error e => .error e
  | .ok (user_auth, cache2) =>
    if user_auth.is_active then .ok (user_auth, cache2)
    else .error (.api (unauthorizedException "Invalid credentials or account is unavailable"))

/-- The dependency returned by `Authenticate.superuser_required()`. -/
def superuser_required (cookie : Option SignedToken) (keyObj timeNow : Nat)
    (cache : AuthCache) (store : UserStore) : Except Failure (UserAuth × AuthCache) :=
  match get_current_active_user cookie keyObj timeNow cache store with
  | .error e => .error e
  | .ok (user_auth, cache2) =>
    if user_auth.is_superuser then .ok (user_auth, cache2)
    else .error (.api (permissionDeniedException "Access denied: Superuser privileges required"))

/-- The dependency returned by `Authenticate.trainer_required()`. -/
def trainer_required (cookie : Option SignedToken) (keyObj timeNow : Nat)
    (cache : AuthCache) (store : UserStore) : Except Failure (UserAuth × AuthCache) :=
  match get_current_active_user cookie keyObj timeNow cache store with
  | .error e => .error e
  | .ok (user_auth, cache2) =>
    if user_auth.role_slug == FITNESS_TRAINER_ROLE_SLUG then .ok (user_auth, cache2)
    else .error (.api (permissionDeniedException "Access restricted to fitness trainers"))

/-! ## User service and role controller
(app/domain/users/services.py, app/domain/users/utils.py,
app/domain/users/controllers/user_role.py) -/

/-- A row of the `user` table as the auth subsystem reads it, with the role
columns the controllers touch. `role_slug` is the slug of the role row that
`role_id` references (the association proxy on the ORM model). -/
structure DbUser where
  id : String
  name : Option String
  email : String
  password : HashedPassword
  is_active : Bool
  is_superuser : Bool
  role_id : String
  role_slug : String
deriving DecidableEq

/-- A row of the `role` table as loaded by `get_id_and_slug_by_slug`. -/
structure Role where
  id : String
  slug : String
deriving DecidableEq

/-- `users_service.get_one_or_none(email=..)`: the first user row whose
email matches, if any. -/
def get_one_or_none_by_email (db : List DbUser) (email : String) : Option DbUser :=
  db.find? (fun u => u.email == email)

/-- `UserService.authenticate(username, password)`: a missing user, a failed
password verification and an inactive account all raise the same
`UnauthorizedException("Invalid credentials or account is unavailable")`
through one combined condition. -/
def UserService_authenticate (db : List DbUser) (username password : String) :
    Except Failure DbUser :=
  match get_one_or_none_by_email db username with
  | none => .error (.api (unauthorizedException "Invalid credentials or account is unavailable"))
  | some db_obj =>
    if !(verify_password password db_obj.password) then
      .error (.api (unauthorizedException "Invalid credentials or account is unavailable"))
    else if !db_obj.is_active then
      .error (.api (unauthorizedException "Invalid credentials or account is unavailable"))
    else
      .ok db_obj

/-- `UserService.check_critical_action_forbidden(target_user,
calling_superuser_id)`: 403 when the target is the primary system
administrator account or the caller themselves. -/
def check_critical_action_forbidden (target_user : DbUser) (calling_superuser_id : String) :
    Except Failure Unit :=
  if target_user.email == DEFAULT_ADMIN_EMAIL then
    .error (.api (permissionDeniedException
      "Forbidden: Cannot modify the primary system administrator account"))
  else if target_user.id == calling_superuser_id then
    .error (.api (permissionDeniedException
      "Self-action forbidden: Cannot perform destructive action on your own account"))
  else
    .ok ()

/-- `check_user_before_modify_role(users_service, email)`
(domain/users/utils.py): 404 when no user has the email, 403 when the user
is inactive. -/
def check_user_before_modify_role (db : List DbUser) (email : String) : Except Failure DbUser :=
  match get_one_or_none_by_email db email with
  | none => .error (.api userNotFound)
  | some user_obj =>
    if !user_obj.is_active then
      .error (.api (permissionDeniedException
        ("Cannot modify role for inactive user " ++ user_obj.email)))
    else
      .ok user_obj

/-- `RoleService.get_id_and_slug_by_slug(slug)`: 404 `NotFoundException`
when no role has the slug. The Python message quotes the slug; the
punctuation around the slug is elided here. -/
def get_id_and_slug_by_slug (roles : List Role) (slug : String) : Except Failure Role :=
  match roles.find? (fun r => r.slug == slug) with
  | none => .error (.api (notFoundException ("Role with slug " ++ slug ++ " not found")))
  | some r => .ok r

/-- The state the role controller can observe and mutate: the user table
and the identity cache. -/
structure AppState where
  db : List DbUser
  cache : AuthCache
deriving DecidableEq

/-- `users_service.update(data={"role_id": new_role.id}, item_id=user_obj.id)`:
the targeted row gets the new role (and, through the foreign key, the new
role slug). -/
def update_user_role (db : List DbUser) (user_id : String) (new_role : Role) : List DbUser :=
  db.map (fun u =>
    if u.id == user_id then { u with role_id := new_role.id, role_slug := new_role.slug } else u)

/-- The `assign_new_role` controller (controllers/user_role.py): existence
and activity check on the target, critical-action check against the calling
superuser, role lookup, conflict check, then the role update followed by
cache invalidation. The returned state is unchanged on every rejection.
The success and conflict messages quote names; punctuation is elided. -/
def assign_new_role (st : AppState) (roles : List Role) (super_user : UserAuth)
    (email : String) (user_add_role_slug : String) (fcNs uaNs : String) :
    Except Failure String × AppState :=
  match check_user_before_modify_role st.db email with
  | .error e => (.error e, st)
  | .ok user_obj =>
    match check_critical_action_forbidden user_obj super_user.id with
    | .error e => (.error e, st)
    | .ok _ =>
      match get_id_and_slug_by_slug roles user_add_role_slug with
      | .error e => (.error e, st)
      | .ok new_role =>
        if user_obj.role_id == new_role.id then
          (.error (.api (conflictException
            ("User " ++ user_obj.email ++ " already has the " ++ new_role.slug ++ " role"))), st)
        else
          (.ok ("Successfully assigned the " ++ new_role.slug ++ " role to " ++ user_obj.email),
           { db := update_user_role st.db user_obj.id new_role,
             cache := invalidate_user_cache fcNs uaNs user_obj.id st.cache })

/-- The `revoke_and_set_default_role` controller (controllers/user_role.py):
like `assign_new_role` but the target must currently hold the revoked role,
which is then replaced by the default role. `RoleService.get_default_role`
uses `get_one`, whose `NotFoundError` escapes the handler chain
(`Failure.ormNotFound`). Quoting punctuation in messages is elided. -/
def revoke_and_set_default_role (st : AppState) (roles : List Role) (super_user : UserAuth)
    (email : String) (user_revoke_role_slug : String) (fcNs uaNs : String) :
    Except Failure String × AppState :=
  match check_user_before_modify_role st.db email with
  | .error e => (.error e, st)
  | .ok user_obj =>
    match check_critical_action_forbidden user_obj super_user.id with
    | .error e => (.error e, st)
    | .ok _ =>
      match get_id_and_slug_by_slug roles user_revoke_role_slug with
      | .error e => (.error e, st)
      | .ok old_role =>
        if old_role.id == user_obj.role_id then
          match roles.find? (fun r => r.slug == DEFAULT_USER_ROLE_SLUG) with
          | none => (.error .ormNotFound, st)
          | some default_role =>
            (.ok ("Successfully revoked the " ++ old_role.slug ++ " role for "
               ++ user_obj.email ++ " and set to default role " ++ default_role.slug),
             { db := update_user_role st.db user_obj.id default_role,
               cache := invalidate_user_cache fcNs uaNs user_obj.id st.cache })
        else
          (.error (.api (conflictException ("User " ++ user_obj.email ++ " currently has the "
             ++ user_obj.role_slug ++ " role, which does not match the requested role "
             ++ old_role.slug ++ " for revocation"))), st)

/-- The `update_user` controller (controllers/users.py): load the target by
id (404 when absent), critical-action check, then apply the update. The
`UserUpdate` payload is abstracted as the row transformation `apply_update`
that `users_service.update` performs with it; the duplicate-email conflict
branch is outside the scope of the properties below. After the update, the
staged source calls `invalidate_user_cache(user_id=db_obj.id)` without the
required `redis_client` argument (users.py lines 162-164), so the endpoint
raises `TypeError` there and the identity cache is never invalidated. The
`fcNs`/`uaNs` parameters of the unreached invalidation are kept for
signature parity with the role controllers. -/
def update_user (st : AppState) (super_user : UserAuth) (user_id : String)
    (apply_update : DbUser → DbUser) (_fcNs _uaNs : String) :
    Except Failure DbUser × AppState :=
  match st.db.find? (fun u => u.id == user_id) with
  | none => (.error (.api userNotFound), st)
  | some user_obj =>
    match check_critical_action_forbidden user_obj super_user.id with
    | .error e => (.error e, st)
    | .ok _ =>
      (.error (.typeError "invalidate_user_cache missing required argument redis_client"),
       { db := st.db.map (fun u => if u.id == user_id then apply_update u else u),
         cache := st.cache })

/-- The `delete_user` controller (controllers/users.py): load the target by
id (404 when absent), critical-action check, then delete the row. After the
delete, the staged source calls `invalidate_user_cache(user_id=user_id)`
without the required `redis_client` argument (users.py lines 202-204), so
the endpoint raises `TypeError` there and the identity cache is never
invalidated. The `fcNs`/`uaNs` parameters of the unreached invalidation are
kept for signature parity with the role controllers. -/
def delete_user (st : AppState) (super_user : UserAuth) (user_id : String)
    (_fcNs _uaNs : String) : Except Failure Unit × AppState :=
  match st.db.find? (fun u => u.id == user_id) with
  | none => (.error (.api userNotFound), st)
  | some user_obj =>
    match check_critical_action_forbidden user_obj super_user.id with
    | .error e => (.error e, st)
    | .ok _ =>
      (.error (.typeError "invalidate_user_cache missing required argument redis_client"),
       { db := st.db.filter (fun u => !(u.id == user_id)),
         cache := st.cache })

/-- Decidable equality of `Except` results, used to evaluate the pipeline
on concrete inputs. -/
instance {ε α : Type} [DecidableEq ε] [DecidableEq α] : DecidableEq (Except ε α) := fun a b =>
  match a, b with
  | .error x, .error y =>
    if h : x = y then .isTrue (congrArg Except.error h)
    else .isFalse (fun hc => h (Except.error.inj hc))
  | .ok x, .ok y =>
    if h : x = y then .isTrue (congrArg Except.ok h)
    else .isFalse (fun hc => h (Except.ok.inj hc))
  | .error _, .ok _ => .isFalse (fun hc => Except.noConfusion hc)
  | .ok _, .error _ => .isFalse (fun hc => Except.noConfusion hc)

/-! ## Sample data for concrete evaluations -/

/-- A sample active superuser identity with the fitness-trainer role. -/
def sampleUser : UserAuth :=
  { id := "11111111-1111-1111-1111-111111111111", name := some "Alice Example",
    email := "alice@example.com", is_active := true, is_superuser := true,
    role_slug := "fitness-trainer", refresh_jti := none }

/-- A user store holding exactly `sampleUser`. -/
def sampleStore : UserStore :=
  fun uid => if uid = sampleUser.id then some sampleUser else none

/-- A refresh token for `sampleUser` signed with key 7 at time 1000. -/
def sampleRefreshToken : SignedToken :=
  create_refresh_token sampleUser.id 7 1000 "jti-1"

/-- An access token for `sampleUser` signed with key 7 at time 1000. -/
def sampleAccessToken : SignedToken :=
  create_access_token sampleUser.id sampleUser.email 7 1000 "jti-2"

/-- The cache produced by a miss-then-load for `sampleUser`. -/
def sampleCacheAfter : AuthCache :=
  [(user_auth_cache_key sampleUser.id, sampleUser)]

/-- The database row of `sampleUser`. -/
def sampleDbUser : DbUser :=
  { id := sampleUser.id, name := sampleUser.name, email := sampleUser.email,
    password := get_password_hash "Secret_1" "salt-a", is_active := true,
    is_superuser := true, role_id := "r-2", role_slug := "fitness-trainer" }

/-- The database row of the primary system administrator account. -/
def adminDbUser : DbUser :=
  { id := "22222222-2222-2222-2222-222222222222", name := some "System Admin",
    email := DEFAULT_ADMIN_EMAIL,
    password := get_password_hash "Secret_2" "salt-b", is_active := true,
    is_superuser := true, role_id := "r-1", role_slug := "superuser" }

/-! ## Helper lemmas -/

/-- Appending the same string on the left is injective. -/
theorem string_append_left_cancel {a b c : String} (h : a ++ b = a ++ c) : b = c := by
  have hd := congrArg String.data h
  simp only [String.data_append] at hd
  exact String.ext (List.append_cancel_left hd)

/-- The namespaced blacklist keys of two identifiers agree only when the
identifiers do. -/
theorem revoked_key_inj (a b : String) (h : ("revoked:" ++ a) = ("revoked:" ++ b)) : a = b :=
  string_append_left_cancel h

/-- Filtering out one key leaves a membership test for a different key
unchanged. -/
theorem any_key_filter (l : List (String × String × Nat)) (name target : String)
    (h : name ≠ target) :
    ((l.filter (fun e => !(e.1 == name))).any (fun e => e.1 == target))
      = l.any (fun e => e.1 == target) := by
  induction l with
  | nil => rfl
  | cons e rest ih =>
    cases hbe : (e.1 == name) with
    | true =>
      have hne : (e.1 == target) = false := by
        rw [beq_iff_eq] at hbe
        rw [hbe]
        exact beq_eq_false_iff_ne.mpr h
      simp only [List.filter_cons, hbe, Bool.not_true, Bool.false_eq_true, if_false, ih,
        List.any_cons, hne, Bool.false_or]
    | false =>
      simp only [List.filter_cons, hbe, Bool.not_false, if_true, List.any_cons, ih]

/-- A blacklist membership test after one revocation. -/
theorem blacklist_add (j jti : String) (r : RedisState) :
    is_token_in_blacklist jti (add_token_to_blacklist j r)
      = ((j == jti) || is_token_in_blacklist jti r) := by
  by_cases hj : j = jti
  · subst hj
    simp [is_token_in_blacklist, add_token_to_blacklist, RedisState.setex,
      RedisState.existsKey, List.any_cons]
  · have hne : ("revoked:" ++ j) ≠ ("revoked:" ++ jti) := fun hc => hj (revoked_key_inj _ _ hc)
    have hkey : (("revoked:" ++ j : String) == "revoked:" ++ jti) = false :=
      beq_eq_false_iff_ne.mpr hne
    simp only [is_token_in_blacklist, add_token_to_blacklist, RedisState.setex,
      RedisState.existsKey, List.any_cons, hkey, Bool.false_or,
      any_key_filter _ _ _ hne, beq_eq_false_iff_ne.mpr hj]

/-- A blacklist membership test is unchanged by revocations of other
identifiers. -/
theorem blacklist_history (js : List String) (jti : String) (r : RedisState)
    (hmem : jti ∉ js) :
    is_token_in_blacklist jti (revocation_history js r) = is_token_in_blacklist jti r := by
  induction js generalizing r with
  | nil => rfl
  | cons j rest ih =>
    have hj : j ≠ jti := fun hc => hmem (by simp [hc])
    have hrest : jti ∉ rest := fun hc => hmem (List.mem_cons_of_mem _ hc)
    clear hmem
    calc is_token_in_blacklist jti (revocation_history (j :: rest) r)
        = is_token_in_blacklist jti (revocation_history rest (add_token_to_blacklist j r)) := rfl
      _ = is_token_in_blacklist jti (add_token_to_blacklist j r) := ih _ hrest
      _ = ((j == jti) || is_token_in_blacklist jti r) := blacklist_add j jti r
      _ = is_token_in_blacklist jti r := by
          simp [beq_eq_false_iff_ne.mpr hj]

/-- Deleting one cache key leaves the entry under any other key unchanged. -/
theorem authcache_get_filter_ne (cache : AuthCache) (k2 k : String) (h : k2 ≠ k) :
    AuthCache.get (cache.filter (fun e => !(e.1 == k2))) k = AuthCache.get cache k := by
  induction cache with
  | nil => rfl
  | cons e rest ih =>
    cases hbe : (e.1 == k2) with
    | true =>
      have hne : ¬ (e.1 = k) := by
        rw [beq_iff_eq] at hbe
        rw [hbe]; exact h
      simp only [List.filter_cons, hbe, Bool.not_true, Bool.false_eq_true, if_false, ih,
        AuthCache.get, hne]
    | false =>
      simp only [List.filter_cons, hbe, Bool.not_false, if_true]
      show AuthCache.get (e :: _) k = AuthCache.get (e :: rest) k
      by_cases hek : e.1 = k
      · simp [AuthCache.get, hek]
      · simp [AuthCache.get, hek, ih]

/-! ## Claim theorems -/

/-- Claim C1. The claim states that the key deleted by
`invalidate_user_cache` equals the key under which
`Authenticate._get_user_from_payload` caches the identity, so that
invalidation always empties the entry authentication reads. On the code
this is false for every user id and for every possible value of the
`FASTAPI_CACHE_PREFIX` and `USER_AUTH_CACHE_PREFIX` constants: the deletion
key always contains at least two colons ahead of the user id while the
cashews key is the colon-free literal prefixed `user_auth:`, so the two
keys never coincide and the cached identity entry survives invalidation
unchanged. -/
theorem invalidate_misses_auth_cache_entry (fcNs uaNs user_id : String) (cache : AuthCache) :
    invalidate_cache_key fcNs uaNs user_id ≠ user_auth_cache_key user_id ∧
    AuthCache.get (invalidate_user_cache fcNs uaNs user_id cache) (user_auth_cache_key user_id)
      = AuthCache.get cache (user_auth_cache_key user_id) := by
  have hne : invalidate_cache_key fcNs uaNs user_id ≠ user_auth_cache_key user_id := by
    intro h
    have hd := congrArg (fun s => List.count ':' s.data) h
    simp only [invalidate_cache_key, user_auth_cache_key, String.data_append,
      List.count_append] at hd
    have h1 : List.count ':' ":".data = 1 := by decide
    have h2 : List.count ':' "user_auth:".data = 1 := by decide
    rw [h1, h2] at hd
    omega
  exact ⟨hne, authcache_get_filter_ne cache _ _ hne⟩

/-- Claim C1, evaluated at a concrete input: with the natural constant
values `fastapi-cache` and `user_auth` and a concrete user id, the deleted
key differs from the cached key and a populated cache entry survives the
invalidation that was meant to clear it. -/
theorem invalidate_misses_auth_cache_entry_concrete :
    invalidate_cache_key "fastapi-cache" "user_auth" sampleUser.id
      ≠ user_auth_cache_key sampleUser.id ∧
    AuthCache.get
        (invalidate_user_cache "fastapi-cache" "user_auth" sampleUser.id sampleCacheAfter)
        (user_auth_cache_key sampleUser.id)
      = some sampleUser := by
  exact ⟨by decide, by decide⟩

/-- Claim C3: `add_token_to_blacklist` stores the namespaced key
`revoked:{jti}` with expiry `REFRESH_TOKEN_MAX_AGE`, which equals the
30-day refresh-token lifetime in seconds; immediately after a revocation
`is_token_in_blacklist` is true; and on any ledger whose history never
revoked `jti`, `is_token_in_blacklist jti` is false. -/
theorem blacklist_revocation_semantics (jti : String) (r : RedisState) (js : List String)
    (hmem : jti ∉ js) :
    (add_token_to_blacklist jti r).entries.head?
        = some ("revoked:" ++ jti, "1", REFRESH_TOKEN_MAX_AGE) ∧
    REFRESH_TOKEN_MAX_AGE = REFRESH_TOKEN_EXPIRE_DAYS * 24 * 60 * 60 ∧
    is_token_in_blacklist jti (add_token_to_blacklist jti r) = true ∧
    is_token_in_blacklist jti (revocation_history js RedisState.empty) = false := by
  refine ⟨rfl, by decide, ?_, ?_⟩
  · rw [blacklist_add]
    simp
  · rw [blacklist_history js jti RedisState.empty hmem]
    rfl

/-- Claim C3 witness: concrete revocation history without `jti-9`. -/
theorem blacklist_revocation_semantics_witness :
    ("jti-9" : String) ∉ ["jti-1", "jti-2"] ∧
    is_token_in_blacklist "jti-9" (add_token_to_blacklist "jti-9" RedisState.empty) = true ∧
    is_token_in_blacklist "jti-9" (revocation_history ["jti-1", "jti-2"] RedisState.empty)
      = false := by
  have h := blacklist_revocation_semantics "jti-9" RedisState.empty ["jti-1", "jti-2"]
    (by decide)
  exact ⟨by decide, h.2.2.1, h.2.2.2⟩

/-- Claim C2 (code bug). The claim states that a validly decoded refresh
token whose `jti` is revoked is rejected with the single 401
`Invalid credentials` error at the blacklist-check step. The staged code
cannot produce that outcome: the blacklist call at auth.py lines 147-149
omits the required `redis_client` argument, so every request whose token
decodes and carries a `jti` dies with a `TypeError` at that step — never
the claimed 401 — uniformly in the identity cache and the user store. The
claim describes the intent: the function's docstring promises a 401 for
blacklisted tokens, the integration test for a blacklisted refresh token
asserts a 401, and the pre-migration variant passes `redis_client`; with
the missing argument supplied, the revoked `jti` is rejected with exactly
the claimed 401 before any identity is loaded. -/
theorem refresh_blacklist_step_type_error (token : SignedToken) (keyObj timeNow : Nat)
    (redis : RedisState) (cache : AuthCache) (store : UserStore)
    (payload : TokenClaims) (j : String)
    (hdecode : get_payload_from_token token keyObj timeNow = .ok payload)
    (hjti : payload.jti = some j)
    (hrev : is_token_in_blacklist j redis = true) :
    get_current_user_for_refresh token keyObj timeNow cache store
      = .error (.typeError "is_token_in_blacklist missing required argument redis_client") ∧
    get_current_user_for_refresh token keyObj timeNow cache store
      ≠ .error (.api (unauthorizedException "Invalid credentials")) ∧
    get_current_user_for_refresh_fixed token keyObj timeNow redis cache store
      = .error (.api (unauthorizedException "Invalid credentials")) := by
  have h1 : get_current_user_for_refresh token keyObj timeNow cache store
      = .error (.typeError "is_token_in_blacklist missing required argument redis_client") := by
    unfold get_current_user_for_refresh
    rw [hdecode]
    simp [hjti]
  refine ⟨h1, ?_, ?_⟩
  · rw [h1]
    simp
  · unfold get_current_user_for_refresh_fixed
    rw [hdecode]
    simp [hjti, hrev]

/-- Claim C2 witness: a revoked sample refresh token produces the
`TypeError` on the staged dependency and the claimed 401 on the repaired
one, even though the user store would resolve its subject to an active
identity. -/
theorem refresh_blacklist_step_type_error_witness :
    get_current_user_for_refresh sampleRefreshToken 7 1500 [] sampleStore
      = .error (.typeError "is_token_in_blacklist missing required argument redis_client") ∧
    get_current_user_for_refresh_fixed sampleRefreshToken 7 1500
        (add_token_to_blacklist "jti-1" RedisState.empty) [] sampleStore
      = .error (.api (unauthorizedException "Invalid credentials")) := by
  have h := refresh_blacklist_step_type_error sampleRefreshToken 7 1500
    (add_token_to_blacklist "jti-1" RedisState.empty) [] sampleStore
    sampleRefreshToken.claims "jti-1" (by decide) (by decide) (by decide)
  exact ⟨h.1, h.2.2⟩

/-- Claim C4: decoding a token issued by `create_access_token` or
`create_refresh_token` recovers the subject, an `iat` equal to issuance
time, an `exp` equal to issuance time plus the kind-specific lifetime
(strictly above `iat`), and the freshly generated `jti`; issuances with
identical inputs but distinct fresh identifiers carry distinct `jti`
claims. -/
theorem token_roundtrip_claims (user_id email : String) (keyObj timeNow : Nat) (j1 j2 : String)
    (hfresh : j1 ≠ j2) :
    decode_jwt (create_access_token user_id email keyObj timeNow j1) keyObj
      = .ok { sub := some user_id, email := some email, iat := some timeNow,
              exp := some (timeNow + ACCESS_TOKEN_EXPIRE_MINUTES * 60), jti := some j1 } ∧
    decode_jwt (create_refresh_token user_id keyObj timeNow j1) keyObj
      = .ok { sub := some user_id, email := none, iat := some timeNow,
              exp := some (timeNow + REFRESH_TOKEN_EXPIRE_DAYS * 24 * 60 * 60),
              jti := some j1 } ∧
    timeNow < timeNow + ACCESS_TOKEN_EXPIRE_MINUTES * 60 ∧
    timeNow < timeNow + REFRESH_TOKEN_EXPIRE_DAYS * 24 * 60 * 60 ∧
    (create_access_token user_id email keyObj timeNow j1).claims.jti
      ≠ (create_access_token user_id email keyObj timeNow j2).claims.jti ∧
    (create_refresh_token user_id keyObj timeNow j1).claims.jti
      ≠ (create_refresh_token user_id keyObj timeNow j2).claims.jti := by
  refine ⟨?_, ?_, ?_, ?_, ?_, ?_⟩
  · simp [create_access_token, encode_jwt, decode_jwt]
  · simp [create_refresh_token, encode_jwt, decode_jwt, REFRESH_TOKEN_EXPIRE_DAYS]
  · have : 0 < ACCESS_TOKEN_EXPIRE_MINUTES * 60 := by decide
    omega
  · have : 0 < REFRESH_TOKEN_EXPIRE_DAYS * 24 * 60 * 60 := by decide
    omega
  · simp [create_access_token, encode_jwt, hfresh]
  · simp [create_refresh_token, encode_jwt, hfresh]

/-- Claim C4 witness: round trip at concrete inputs with two distinct fresh
identifiers. -/
theorem token_roundtrip_claims_witness :
    ("jti-a" : String) ≠ "jti-b" ∧
    decode_jwt (create_access_token "u-1" "u@example.com" 3 50 "jti-a") 3
      = .ok { sub := some "u-1", email := some "u@example.com", iat := some 50,
              exp := some (50 + ACCESS_TOKEN_EXPIRE_MINUTES * 60), jti := some "jti-a" } :=
  ⟨by decide,
   (token_roundtrip_claims "u-1" "u@example.com" 3 50 "jti-a" "jti-b" (by decide)).1⟩

/-- Claim C5: a token whose `exp` claim lies in the past is rejected by
`get_payload_from_token` regardless of signature validity, and every
rejection of `get_payload_from_token` — bad signature, expired, or missing
required claims — is the same single 401 `Invalid or expired token`
error. -/
theorem expired_token_always_rejected (token : SignedToken) (keyObj timeNow e : Nat)
    (hexp : token.claims.exp = some e) (hpast : e < timeNow) :
    get_payload_from_token token keyObj timeNow
      = .error (.api (unauthorizedException "Invalid or expired token")) ∧
    ∀ (token2 : SignedToken) (keyObj2 timeNow2 : Nat),
      (∃ c, get_payload_from_token token2 keyObj2 timeNow2 = .ok c) ∨
      get_payload_from_token token2 keyObj2 timeNow2
        = .error (.api (unauthorizedException "Invalid or expired token")) := by
  constructor
  · by_cases hk : token.sigKey = keyObj
    · cases hiat : token.claims.iat with
      | none =>
        simp [get_payload_from_token, decode_jwt, hk, claims_registry_validate, hexp, hiat]
      | some i =>
        simp [get_payload_from_token, decode_jwt, hk, claims_registry_validate, hexp, hiat,
          hpast]
    · simp [get_payload_from_token, decode_jwt, hk]
  · intro token2 keyObj2 timeNow2
    unfold get_payload_from_token
    cases hdec : decode_jwt token2 keyObj2 with
    | error err => right; rfl
    | ok c =>
      cases hval : claims_registry_validate c timeNow2 with
      | error err => right; simp [hval]
      | ok u => left; exact ⟨c, by simp [hval]⟩

/-- Claim C5 witness: a token with a valid signature but `exp` in the past
is rejected with the collapsed 401 error. -/
theorem expired_token_always_rejected_witness :
    get_payload_from_token
        { claims := { sub := some "u-1", email := none, iat := some 10,
                      exp := some 20, jti := some "jti-z" }, sigKey := 3 } 3 100
      = .error (.api (unauthorizedException "Invalid or expired token")) :=
  (expired_token_always_rejected
    { claims := { sub := some "u-1", email := none, iat := some 10,
                  exp := some 20, jti := some "jti-z" }, sigKey := 3 }
    3 100 20 (by decide) (by decide)).1

/-- Claim C6: `UserService.authenticate` produces the identical 401 error
with the identical message whether the email matches no stored user, the
password fails verification, or the account is inactive — the three failure
conditions are indistinguishable to the caller. -/
theorem login_failures_indistinguishable (db : List DbUser) (username password : String) :
    (get_one_or_none_by_email db username = none →
      UserService_authenticate db username password
        = .error (.api (unauthorizedException "Invalid credentials or account is unavailable"))) ∧
    (∀ u, get_one_or_none_by_email db username = some u →
      verify_password password u.password = false →
      UserService_authenticate db username password
        = .error (.api (unauthorizedException "Invalid credentials or account is unavailable"))) ∧
    (∀ u, get_one_or_none_by_email db username = some u →
      u.is_active = false →
      UserService_authenticate db username password
        = .error (.api (unauthorizedException "Invalid credentials or account is unavailable"))) := by
  refine ⟨?_, ?_, ?_⟩
  · intro hnone
    unfold UserService_authenticate
    rw [hnone]
  · intro u hu hverify
    unfold UserService_authenticate
    rw [hu]
    simp [hverify]
  · intro u hu hinactive
    unfold UserService_authenticate
    rw [hu]
    cases hverify : verify_password password u.password with
    | false => simp [hverify]
    | true => simp [hverify, hinactive]

/-- Claim C6 witness: a wrong password against the sample user produces the
single collapsed login error. -/
theorem login_failures_indistinguishable_witness :
    UserService_authenticate [sampleDbUser] sampleDbUser.email "WrongPassword"
      = .error (.api (unauthorizedException "Invalid credentials or account is unavailable")) :=
  (login_failures_indistinguishable [sampleDbUser] sampleDbUser.email
    "WrongPassword").2.1 sampleDbUser (by decide) (by decide)

/-- Claim C7: when the target of a role assignment, role revocation,
administrative user update, or user deletion is the calling superuser
themselves or the primary system administrator account,
`check_critical_action_forbidden` raises a 403, each of the four
controllers rejects with a 403, and the application state (user table and
identity cache) is returned unchanged — the check precedes every
mutation. -/
theorem critical_target_forbidden_no_mutation (st : AppState) (roles : List Role)
    (super_user : UserAuth) (email slug fcNs uaNs : String) (target : DbUser)
    (apply_update : DbUser → DbUser)
    (hfound : check_user_before_modify_role st.db email = .ok target)
    (hbyid : st.db.find? (fun u => u.id == target.id) = some target)
    (hcrit : target.email = DEFAULT_ADMIN_EMAIL ∨ target.id = super_user.id) :
    (∃ m, check_critical_action_forbidden target super_user.id
        = .error (.api (permissionDeniedException m))) ∧
    (∃ m, (assign_new_role st roles super_user email slug fcNs uaNs).1
        = .error (.api (permissionDeniedException m))) ∧
    (assign_new_role st roles super_user email slug fcNs uaNs).2 = st ∧
    (∃ m, (revoke_and_set_default_role st roles super_user email slug fcNs uaNs).1
        = .error (.api (permissionDeniedException m))) ∧
    (revoke_and_set_default_role st roles super_user email slug fcNs uaNs).2 = st ∧
    (∃ m, (update_user st super_user target.id apply_update fcNs uaNs).1
        = .error (.api (permissionDeniedException m))) ∧
    (update_user st super_user target.id apply_update fcNs uaNs).2 = st ∧
    (∃ m, (delete_user st super_user target.id fcNs uaNs).1
        = .error (.api (permissionDeniedException m))) ∧
    (delete_user st super_user target.id fcNs uaNs).2 = st := by
  obtain ⟨m, hm⟩ : ∃ m, check_critical_action_forbidden target super_user.id
      = .error (.api (permissionDeniedException m)) := by
    by_cases hadmin : target.email = DEFAULT_ADMIN_EMAIL
    · exact ⟨"Forbidden: Cannot modify the primary system administrator account",
        by simp [check_critical_action_forbidden, hadmin]⟩
    · have hid : target.id = super_user.id := hcrit.resolve_left hadmin
      exact ⟨"Self-action forbidden: Cannot perform destructive action on your own account",
        by simp [check_critical_action_forbidden, hadmin, hid]⟩
  refine ⟨⟨m, hm⟩, ⟨m, ?_⟩, ?_, ⟨m, ?_⟩, ?_, ⟨m, ?_⟩, ?_, ⟨m, ?_⟩, ?_⟩
  · unfold assign_new_role
    rw [hfound]
    simp [hm]
  · unfold assign_new_role
    rw [hfound]
    simp [hm]
  · unfold revoke_and_set_default_role
    rw [hfound]
    simp [hm]
  · unfold revoke_and_set_default_role
    rw [hfound]
    simp [hm]
  · unfold update_user
    rw [hbyid]
    simp [hm]
  · unfold update_user
    rw [hbyid]
    simp [hm]
  · unfold delete_user
    rw [hbyid]
    simp [hm]
  · unfold delete_user
    rw [hbyid]
    simp [hm]

/-- Claim C7 witness: a superuser targeting the system administrator
account for role assignment and deletion is rejected and the state is
unchanged. -/
theorem critical_target_forbidden_no_mutation_witness :
    (assign_new_role { db := [adminDbUser], cache := [] } [] sampleUser
        adminDbUser.email "fitness-trainer" "fastapi-cache" "user_auth").2
      = { db := [adminDbUser], cache := [] } ∧
    (delete_user { db := [adminDbUser], cache := [] } sampleUser adminDbUser.id
        "fastapi-cache" "user_auth").2
      = { db := [adminDbUser], cache := [] } := by
  have h := critical_target_forbidden_no_mutation { db := [adminDbUser], cache := [] } []
    sampleUser adminDbUser.email "fitness-trainer" "fastapi-cache" "user_auth" adminDbUser
    id (by decide) (by decide) (Or.inl (by decide))
  exact ⟨h.2.2.1, h.2.2.2.2.2.2.2.2⟩

/-- Claim C9: a password verifies against its own hash, any other plaintext
fails against that hash, and hashing the same plaintext with two distinct
salts yields distinct hashes that both still verify against the original
plaintext. -/
theorem password_hash_verify_contract (p q s s1 s2 : String)
    (hq : q ≠ p) (hs : s1 ≠ s2) :
    verify_password p (get_password_hash p s) = true ∧
    verify_password q (get_password_hash p s) = false ∧
    get_password_hash p s1 ≠ get_password_hash p s2 ∧
    verify_password p (get_password_hash p s1) = true ∧
    verify_password p (get_password_hash p s2) = true := by
  refine ⟨?_, ?_, ?_, ?_, ?_⟩
  · simp [verify_password, get_password_hash]
  · simp [verify_password, get_password_hash, hq]
  · simp [get_password_hash, HashedPassword.mk.injEq, hs]
  · simp [verify_password, get_password_hash]
  · simp [verify_password, get_password_hash]

/-- Claim C9 witness: concrete plaintexts and salts. -/
theorem password_hash_verify_contract_witness :
    verify_password "Secret_1" (get_password_hash "Secret_1" "salt-a") = true ∧
    verify_password "Other_2" (get_password_hash "Secret_1" "salt-a") = false ∧
    get_password_hash "Secret_1" "salt-a" ≠ get_password_hash "Secret_1" "salt-b" := by
  have h := password_hash_verify_contract "Secret_1" "Other_2" "salt-a" "salt-a" "salt-b"
    (by decide) (by decide)
  exact ⟨h.1, h.2.1, h.2.2.1⟩

/-- Claim C8: for an authenticated identity, the superuser guard succeeds
exactly when `is_superuser` holds and the trainer guard exactly when
`role_slug` equals the fitness-trainer slug, each rejecting with the 403
permission error on mismatch; an inactive identity is rejected with 401 by
both guards, and a missing cookie (unauthenticated caller) is rejected with
the default 401 — so insufficient privilege is distinguishable from
authentication failure. -/
theorem guard_privilege_semantics (cookie : Option SignedToken) (keyObj timeNow : Nat)
    (cache : AuthCache) (store : UserStore) (u : UserAuth) (c : AuthCache)
    (hauth : get_current_user cookie keyObj timeNow cache store = .ok (u, c)) :
    (u.is_active = false →
      superuser_required cookie keyObj timeNow cache store
        = .error (.api (unauthorizedException "Invalid credentials or account is unavailable")) ∧
      trainer_required cookie keyObj timeNow cache store
        = .error (.api (unauthorizedException "Invalid credentials or account is unavailable"))) ∧
    (u.is_active = true →
      ((superuser_required cookie keyObj timeNow cache store = .ok (u, c))
          ↔ u.is_superuser = true) ∧
      (u.is_superuser = false →
        superuser_required cookie keyObj timeNow cache store
          = .error (.api (permissionDeniedException
              "Access denied: Superuser privileges required"))) ∧
      ((trainer_required cookie keyObj timeNow cache store = .ok (u, c))
          ↔ u.role_slug = FITNESS_TRAINER_ROLE_SLUG) ∧
      (u.role_slug ≠ FITNESS_TRAINER_ROLE_SLUG →
        trainer_required cookie keyObj timeNow cache store
          = .error (.api (permissionDeniedException "Access restricted to fitness trainers")))) ∧
    superuser_required none keyObj timeNow cache store
      = .error (.api (unauthorizedException "Not authenticated")) ∧
    trainer_required none keyObj timeNow cache store
      = .error (.api (unauthorizedException "Not authenticated")) := by
  refine ⟨?_, ?_, ?_, ?_⟩
  · intro hinactive
    constructor
    · unfold superuser_required get_current_active_user
      rw [hauth]
      simp [hinactive]
    · unfold trainer_required get_current_active_user
      rw [hauth]
      simp [hinactive]
  · intro hactive
    have hactiveuser : get_current_active_user cookie keyObj timeNow cache store = .ok (u, c) := by
      unfold get_current_active_user
      rw [hauth]
      simp [hactive]
    refine ⟨?_, ?_, ?_, ?_⟩
    · constructor
      · intro hok
        cases hsu : u.is_superuser with
        | true => rfl
        | false =>
          unfold superuser_required at hok
          rw [hactiveuser] at hok
          simp [hsu] at hok
      · intro hsu
        unfold superuser_required
        rw [hactiveuser]
        simp [hsu]
    · intro hsu
      unfold superuser_required
      rw [hactiveuser]
      simp [hsu]
    · constructor
      · intro hok
        by_cases hrole : u.role_slug = FITNESS_TRAINER_ROLE_SLUG
        · exact hrole
        · unfold trainer_required at hok
          rw [hactiveuser] at hok
          simp [beq_eq_false_iff_ne.mpr hrole] at hok
      · intro hrole
        unfold trainer_required
        rw [hactiveuser]
        simp [beq_iff_eq.mpr hrole]
    · intro hrole
      unfold trainer_required
      rw [hactiveuser]
      simp [beq_eq_false_iff_ne.mpr hrole]
  · simp [superuser_required, get_current_active_user, get_current_user, jwt_cookie_security]
  · simp [trainer_required, get_current_active_user, get_current_user, jwt_cookie_security]

/-- Claim C8 witness: the sample active superuser passes the superuser
guard through a real access token. -/
theorem guard_privilege_semantics_witness :
    superuser_required (some sampleAccessToken) 7 1500 [] sampleStore
      = .ok (sampleUser, sampleCacheAfter) :=
  (((guard_privilege_semantics (some sampleAccessToken) 7 1500 [] sampleStore
      sampleUser sampleCacheAfter (by decide)).2.1 (by decide)).1).mpr (by decide)

/-- Claim C10 counterexample: the claim states that a validly signed,
unexpired token carrying `sub` and `jti` delivered in the refresh cookie is
accepted by `get_current_user_for_refresh` when not blacklisted and its
subject is active. At the concrete sample access token — valid signature,
unexpired at time 1500, fresh `jti`, subject resolving to an active
identity, nothing blacklisted — the staged dependency instead fails with
the `TypeError` raised by its blacklist call, so it accepts nothing and no
new token pair can be minted. -/
theorem refresh_staged_never_accepts_counterexample :
    get_current_user_for_refresh sampleAccessToken 7 1500 [] sampleStore
      = .error (.typeError "is_token_in_blacklist missing required argument redis_client") ∧
    get_current_user_for_refresh sampleAccessToken 7 1500 [] sampleStore
      ≠ .ok ({ sampleUser with refresh_jti := some "jti-2" }, sampleCacheAfter) := by
  exact ⟨by decide, by decide⟩

/-- Claim C10 (amended): the refresh dependency never checks that the
presented token was issued as a refresh token, but in the staged code every
refresh attempt whose token decodes dies with a `TypeError` at the
blacklist call (missing `redis_client`, auth.py line 147) before any
acceptance — in particular a valid access token in the refresh cookie is
not accepted and cannot mint a new pair. Once the missing argument is
supplied (as the tests and the pre-migration variant do), the absence of a
kind check is effective: a validly signed, unexpired token minted by
`create_access_token` and delivered as the refresh token is accepted by
`get_current_user_for_refresh_fixed` whenever its `jti` is not blacklisted
and its subject resolves to an active identity. -/
theorem refresh_accepts_access_token_only_after_fix (user_id email : String)
    (keyObj timeNow now2 : Nat) (jti : String) (redis : RedisState) (cache : AuthCache)
    (store : UserStore) (u : UserAuth)
    (hnotexp : now2 ≤ timeNow + ACCESS_TOKEN_EXPIRE_MINUTES * 60)
    (hnorev : is_token_in_blacklist jti redis = false)
    (hmiss : AuthCache.get cache (user_auth_cache_key user_id) = none)
    (hstore : store user_id = some u)
    (hactive : u.is_active = true) :
    get_current_user_for_refresh (create_access_token user_id email keyObj timeNow jti)
        keyObj now2 cache store
      = .error (.typeError "is_token_in_blacklist missing required argument redis_client") ∧
    get_current_user_for_refresh_fixed (create_access_token user_id email keyObj timeNow jti)
        keyObj now2 redis cache store
      = .ok ({ u with refresh_jti := some jti }, (user_auth_cache_key user_id, u) :: cache) := by
  have hexp : ¬ (timeNow + ACCESS_TOKEN_EXPIRE_MINUTES * 60 < now2) := by omega
  constructor
  · simp [get_current_user_for_refresh, get_payload_from_token, decode_jwt,
      claims_registry_validate, create_access_token, encode_jwt, hexp]
  · simp [get_current_user_for_refresh_fixed, get_payload_from_token, decode_jwt,
      claims_registry_validate, create_access_token, encode_jwt, hexp, hnorev,
      get_user_from_payload, hmiss, hstore, hactive]

/-- Claim C10 witness: the sample access token, presented on the refresh
path with an empty blacklist, is rejected by the staged dependency with
the `TypeError` and accepted by the repaired one, which mints an
authenticated identity carrying its `jti`. -/
theorem refresh_accepts_access_token_only_after_fix_witness :
    get_current_user_for_refresh sampleAccessToken 7 1500 [] sampleStore
      = .error (.typeError "is_token_in_blacklist missing required argument redis_client") ∧
    get_current_user_for_refresh_fixed sampleAccessToken 7 1500 RedisState.empty [] sampleStore
      = .ok ({ sampleUser with refresh_jti := some "jti-2" }, sampleCacheAfter) :=
  refresh_accepts_access_token_only_after_fix sampleUser.id sampleUser.email 7 1000 1500
    "jti-2" RedisState.empty [] sampleStore sampleUser
    (by decide) (by decide) (by decide) (by decide) (by decide)

end IronTrack
